import Mathlib

/-!
Verification of the AQI forecasting backend (`backend/main.py`,
`backend/model_loader.py`).

Modelling conventions:
* Python numbers (int/float) are modelled as exact rationals `ℚ`; float
  arithmetic is treated as exact arithmetic.
* A raw upstream JSON value is a `PyVal`: null, a number, a string (carrying
  the number it parses to, if any), or some other non-numeric object.
* A Python expression that may raise is modelled as an `Option`/pair with a
  raised flag; `Option.none` (or flag `true`) marks a raised exception.
* Python list indexing `vals[i]` supports negative indices (offset from the
  end) and raises when still out of range; `pyIndex` reproduces this.
* The predictor (`model.predict` restricted to a single row) is a function
  `List ℚ → Option ℚ`; `Option.none` models a predictor that raises.
* Dates are modelled as integer day numbers; `today + dt.timedelta(days=k)`
  becomes `today + k`.
-/

set_option maxRecDepth 4000

/-- A raw JSON/Python value as seen by `_safe_num`: null, a number, a string
(tagged with the rational it parses to when `float(s)` succeeds), or any
other object on which `float` raises. -/
inductive PyVal where
  | none : PyVal
  | num : ℚ → PyVal
  | str : Option ℚ → PyVal
  | obj : PyVal
deriving DecidableEq

/-- Semantics of Python `float(x)`: `some q` when conversion succeeds with
value `q`, `Option.none` when it raises (`float(None)` raises TypeError,
a non-numeric string raises ValueError, other objects raise TypeError). -/
def pyFloat : PyVal → Option ℚ
  | PyVal.none => Option.none
  | PyVal.num q => some q
  | PyVal.str v => v
  | PyVal.obj => Option.none

/-- `_safe_num` from `backend/main.py` (lines 33-40): return `default` when
`x is None`, otherwise `float(x)`, and `default` again when `float` raises. -/
def safe_num (x : PyVal) (default : ℚ) : ℚ :=
  match x with
  | PyVal.none => default
  | x => match pyFloat x with
         | some q => q
         | Option.none => default

/-- The `AQIFeatures` pydantic model of `backend/main.py` (lines 22-30):
eight named float fields. -/
structure AQIFeatures where
  PM25 : ℚ
  PM10 : ℚ
  NO2 : ℚ
  NO : ℚ
  NH3 : ℚ
  CO : ℚ
  SO2 : ℚ
  O3 : ℚ
deriving DecidableEq

/-- The `aq["hourly"]` document: the `time` array and the seven pollutant
arrays (`hours.get(name, [])` in the source), aligned by hourly index but
possibly of different lengths. -/
structure Hourly where
  time : List String
  pm2_5 : List PyVal
  pm10 : List PyVal
  nitrogen_dioxide : List PyVal
  carbon_monoxide : List PyVal
  sulphur_dioxide : List PyVal
  ozone : List PyVal
  ammonia : List PyVal
deriving DecidableEq

/-- Python list subscription `vals[i]` for an `int` index: a negative index
counts from the end (`len(vals) + i`); the access raises (`Option.none`)
when the effective index is still out of range. -/
def pyIndex (vals : List PyVal) (i : ℤ) : Option PyVal :=
  let j : ℤ := if i < 0 then (vals.length : ℤ) + i else i
  if h : 0 ≤ j ∧ j < (vals.length : ℤ) then
    some (vals.get ⟨j.toNat, by omega⟩)
  else
    Option.none

/-- The guarded access `vals[i] if i < len(vals) else None` used in both
forecast loops of `backend/main.py`. `Option.none` models a raised
exception (possible only for a negative `i` on a too-short list);
`some PyVal.none` is the Python value `None`. -/
def guardedItem (vals : List PyVal) (i : ℤ) : Option PyVal :=
  if i < (vals.length : ℤ) then pyIndex vals i else some PyVal.none

/-- Total variant of the guarded access for a natural index: `vals[i]` when
in range, Python `None` otherwise. -/
def getAt (vals : List PyVal) (i : ℕ) : PyVal :=
  if h : i < vals.length then vals.get ⟨i, h⟩ else PyVal.none

/-- The `AQIFeatures(...)` construction of the forecast loops
(`backend/main.py` lines 136-145 and 173-182) at index `i`, with the raised
exception of an unguarded negative access propagated; field order and
evaluation order follow the source (PM25, PM10, NO2, NO=0, NH3, CO, SO2, O3). -/
def build_features_x (h : Hourly) (i : ℤ) : Option AQIFeatures :=
  (guardedItem h.pm2_5 i).bind fun pm25 =>
  (guardedItem h.pm10 i).bind fun pm10 =>
  (guardedItem h.nitrogen_dioxide i).bind fun no2 =>
  (guardedItem h.ammonia i).bind fun nh3 =>
  (guardedItem h.carbon_monoxide i).bind fun co =>
  (guardedItem h.sulphur_dioxide i).bind fun so2 =>
  (guardedItem h.ozone i).bind fun o3 =>
  some { PM25 := safe_num pm25 0, PM10 := safe_num pm10 0,
         NO2 := safe_num no2 0, NO := 0, NH3 := safe_num nh3 0,
         CO := safe_num co 0, SO2 := safe_num so2 0, O3 := safe_num o3 0 }

/-- The same feature construction for a natural (hence in-range-or-guarded)
index, where no exception is possible. -/
def featuresAt (h : Hourly) (i : ℕ) : AQIFeatures :=
  { PM25 := safe_num (getAt h.pm2_5 i) 0, PM10 := safe_num (getAt h.pm10 i) 0,
    NO2 := safe_num (getAt h.nitrogen_dioxide i) 0, NO := 0,
    NH3 := safe_num (getAt h.ammonia i) 0,
    CO := safe_num (getAt h.carbon_monoxide i) 0,
    SO2 := safe_num (getAt h.sulphur_dioxide i) 0,
    O3 := safe_num (getAt h.ozone i) 0 }

/-- A predictor restricted to one feature row: `some` is the scalar result of
`model.predict([row])[0]`, `Option.none` a predictor that raises on that row. -/
abbrev Predictor := List ℚ → Option ℚ

/-- The single-row batch `X` built by `predict_3h` (`backend/main.py`
lines 80-89): the eight fields in source order. -/
def featureRow (f : AQIFeatures) : List ℚ :=
  [f.PM25, f.PM10, f.NO2, f.NO, f.NH3, f.CO, f.SO2, f.O3]

/-- `predict_3h` from `backend/main.py` (lines 78-90) with the resolved model
passed explicitly: apply the predictor to the feature row. -/
def predict_3h (model : Predictor) (f : AQIFeatures) : Option ℚ :=
  model (featureRow f)

/-- The `DummyModel.predict` fallback (both sources): `sum(row) * 0.1 + 50`,
never raising. -/
def dummyPredict : Predictor :=
  fun row => some (row.sum * (1 / 10) + 50)

/-- One entry of the `forecast30` list: an (ISO-)date, modelled as an integer
day number, and the clamped predicted AQI. -/
structure ForecastPoint where
  date : ℤ
  predicted_aqi : ℚ
deriving DecidableEq

/-- One entry of the `hourly_aqi` list: the upstream timestamp string and the
(unclamped) predicted AQI. -/
structure HourPoint where
  time : String
  predicted_aqi : ℚ
deriving DecidableEq

/-- Python's builtin `min` on two ints: the first argument when they are
equal. Written with an explicit `if` so that it evaluates inside the kernel. -/
def pyMinI (a b : ℤ) : ℤ := if a ≤ b then a else b

/-- Python's builtin `max` on two numbers, on the rational model: the first
argument when they are equal. -/
def pyMaxQ (a b : ℚ) : ℚ := if b ≤ a then a else b

/-- One iteration of a forecast-building loop over an accumulated list and a
raised flag: once an exception was raised the loop body no longer runs
(the `try` block aborted); otherwise a successful step appends its point and
a failing step raises. -/
def loopStep {α β : Type} (step : α → Option β) (acc : List β × Bool) (a : α) :
    List β × Bool :=
  if acc.2 then acc
  else
    match step a with
    | some b => (acc.1 ++ [b], false)
    | Option.none => (acc.1, true)

/-- The index `i = min(d, len(timestamps) - 1)` picked for day offset `d` in
the 30-day loop (`backend/main.py` line 135), over ℤ as in Python (so it is
`-1` when `timestamps` is empty). -/
def forecastIndex (h : Hourly) (d : ℕ) : ℤ :=
  pyMinI (d : ℤ) ((h.time.length : ℤ) - 1)

/-- The body of one 30-day-loop iteration (`backend/main.py` lines 135-154):
build features at the day's index (propagating a raised indexing error),
predict with the per-sample fallback 50.0, clamp at 0.0 and date the point
`today + (d+1)` days. -/
def forecast30_point (model : Predictor) (h : Hourly) (today : ℤ) (d : ℕ) :
    Option ForecastPoint :=
  match build_features_x h (forecastIndex h d) with
  | Option.none => Option.none
  | some f =>
    some { date := today + d + 1,
           predicted_aqi := pyMaxQ 0 ((predict_3h model f).getD 50) }

/-- The whole guarded 30-day block (`backend/main.py` lines 121-157): the
list accumulated in `forecast30` and whether the surrounding `except` was
entered. The accumulated list survives the exception (it is initialised
before the `try`). -/
def forecast30_run (model : Predictor) (h : Hourly) (today : ℤ) :
    List ForecastPoint × Bool :=
  (List.range 30).foldl (loopStep (forecast30_point model h today)) ([], false)

/-- The `forecast_30d` field of the response: whatever the 30-day block
accumulated, whether or not its exception handler fired. -/
def build_forecast_30d (model : Predictor) (h : Hourly) (today : ℤ) :
    List ForecastPoint :=
  (forecast30_run model h today).1

/-- The body of one hourly-loop iteration (`backend/main.py` lines 172-187)
at position `i` with timestamp `ts`: features at index `i`, prediction with
fallback 50.0, no clamping. -/
def hourly_point (model : Predictor) (h : Hourly) (i : ℕ) (ts : String) :
    Option HourPoint :=
  match build_features_x h (i : ℤ) with
  | Option.none => Option.none
  | some f =>
    some { time := ts, predicted_aqi := (predict_3h model f).getD 50 }

/-- The whole guarded hourly block (`backend/main.py` lines 160-189):
`for i, ts in enumerate(timestamps[:24])`, with the same exception plumbing
as the 30-day block. -/
def hourly_run (model : Predictor) (h : Hourly) : List HourPoint × Bool :=
  ((h.time.take 24).enum).foldl
    (loopStep (fun q => hourly_point model h q.1 q.2)) ([], false)

/-- The `hourly_aqi` field of the response. -/
def build_hourly_today (model : Predictor) (h : Hourly) : List HourPoint :=
  (hourly_run model h).1

/-- The parts of the `/api/live` response relevant here: the weather
snapshot (passed through unchanged), the uncaught 3-hour prediction and the
two forecast sections. -/
structure LiveResponse where
  weather : ℚ × ℚ × ℚ × ℚ
  predicted_aqi_3h : ℚ
  forecast_30d : List ForecastPoint
  hourly_aqi : List HourPoint
deriving DecidableEq

/-- The response assembly of `live` (`backend/main.py` lines 118-201) after
upstream data was obtained: the top-level `predict_3h` call on the current
components is not guarded, so its failure aborts the whole request
(`Option.none`); the two forecast sections are each guarded and contribute
whatever their blocks accumulated. -/
def live_core (model : Predictor) (h : Hourly) (comps : AQIFeatures)
    (wx : ℚ × ℚ × ℚ × ℚ) (today : ℤ) : Option LiveResponse :=
  match predict_3h model comps with
  | Option.none => Option.none
  | some aqi3 =>
    some { weather := wx, predicted_aqi_3h := aqi3,
           forecast_30d := (forecast30_run model h today).1,
           hourly_aqi := (hourly_run model h).1 }

/-- The observable state of a module-level model cache: the `_model_cache`
global, the number of `joblib.load` attempts made so far, and the number of
`[WARN] ... using DummyModel` messages printed so far. -/
structure LoaderState where
  cache : Option Predictor
  attempts : ℕ
  warns : ℕ

/-- The state at process start: `_model_cache = None`, nothing attempted,
nothing printed. -/
def initLoader : LoaderState := { cache := Option.none, attempts := 0, warns := 0 }

namespace ModelLoaderSrc

/-- The default `model_path` of `load_model` in `backend/model_loader.py`. -/
def model_path : String :=
  "/Users/nitheeswaran/aqi-weather-app/aqi_2020_multivariate_model.pkl"

/-- The `DummyModel().predict` fallback built in `backend/model_loader.py`
(lines 16-19): `np.sum(X, axis=1) * 0.1 + 50` on a single row. -/
def dummyModel : Predictor :=
  fun row => some (row.sum * (1 / 10) + 50)

/-- `load_model` from `backend/model_loader.py` (lines 7-22) as a state
transformer. `outcome` is the result of `joblib.load(model_path)`:
`some mdl` on success, `Option.none` when it raises. A filled cache is
returned untouched with no load attempt; otherwise one attempt is made and
either the loaded model or the dummy fallback (with one warning printed) is
cached and returned. -/
def load_model (outcome : Option Predictor) (s : LoaderState) :
    Predictor × LoaderState :=
  match s.cache with
  | some mdl => (mdl, s)
  | Option.none =>
    match outcome with
    | some mdl =>
      (mdl, { cache := some mdl, attempts := s.attempts + 1, warns := s.warns })
    | Option.none =>
      (dummyModel,
       { cache := some dummyModel, attempts := s.attempts + 1,
         warns := s.warns + 1 })

end ModelLoaderSrc

namespace MainSrc

/-- The default `model_path` of the `load_model` redefined at the bottom of
`backend/main.py` (line 214). -/
def model_path : String :=
  "/Users/nitheeswaran/aqi-weather-app/aqi_2020_multivariate_model.pkl"

/-- The `DummyModel().predict` fallback built in `backend/main.py`
(lines 222-225). -/
def dummyModel : Predictor :=
  fun row => some (row.sum * (1 / 10) + 50)

/-- `load_model` from `backend/main.py` (lines 214-228), the definition that
shadows the one imported from `model_loader`; same shape as
`ModelLoaderSrc.load_model` but embedded from its own source text (it uses
its own module-level `_model_cache`). -/
def load_model (outcome : Option Predictor) (s : LoaderState) :
    Predictor × LoaderState :=
  match s.cache with
  | some mdl => (mdl, s)
  | Option.none =>
    match outcome with
    | some mdl =>
      (mdl, { cache := some mdl, attempts := s.attempts + 1, warns := s.warns })
    | Option.none =>
      (dummyModel,
       { cache := some dummyModel, attempts := s.attempts + 1,
         warns := s.warns + 1 })

end MainSrc

/-- The upstream data of spec §8 scenario 7: two hourly samples for each
pollutant and two timestamps. `0.5`, `1.5`, `0.1`, `0.2` are the exact
rationals behind the float literals. -/
def scenarioHours : Hourly :=
  { time := ["t0", "t1"],
    pm2_5 := [PyVal.num 10, PyVal.num 20],
    pm10 := [PyVal.num 5, PyVal.num 15],
    nitrogen_dioxide := [PyVal.num 1, PyVal.num 2],
    carbon_monoxide := [PyVal.num 100, PyVal.num 200],
    sulphur_dioxide := [PyVal.num (1 / 2), PyVal.num (3 / 2)],
    ozone := [PyVal.num 30, PyVal.num 40],
    ammonia := [PyVal.num (1 / 10), PyVal.num (2 / 10)] }

/-- An upstream document with an empty `time` array but one sample in every
pollutant array. -/
def emptyTimeHours : Hourly :=
  { time := [],
    pm2_5 := [PyVal.num 1], pm10 := [PyVal.num 1],
    nitrogen_dioxide := [PyVal.num 1], carbon_monoxide := [PyVal.num 1],
    sulphur_dioxide := [PyVal.num 1], ozone := [PyVal.num 1],
    ammonia := [PyVal.num 1] }

/-- An upstream document in which every array, `time` included, is empty. -/
def emptyAllHours : Hourly :=
  { time := [], pm2_5 := [], pm10 := [], nitrogen_dioxide := [],
    carbon_monoxide := [], sulphur_dioxide := [], ozone := [], ammonia := [] }

/-- A predictor that raises exactly on the index-0 feature row of
`scenarioHours` and behaves like the dummy model everywhere else. -/
def failAtFirstRow : Predictor :=
  fun row =>
    if row = [10, 5, 1, 0, 1 / 10, 100, 1 / 2, 30] then Option.none
    else dummyPredict row

/-- A predictor that always raises. -/
def failingPredictor : Predictor := fun _ => Option.none

/-! Helper lemmas about the embedded operations. -/

theorem pyMinI_eq_min (a b : ℤ) : pyMinI a b = min a b := by
  simp only [pyMinI, min_def]

theorem pyMaxQ_eq_max (a b : ℚ) : pyMaxQ a b = max a b := by
  rcases le_total a b with hab | hab
  · rcases eq_or_lt_of_le hab with rfl | hlt
    · simp [pyMaxQ]
    · simp [pyMaxQ, max_eq_right hab, not_le.mpr hlt]
  · simp [pyMaxQ, max_eq_left hab, hab]

theorem le_pyMaxQ_left (a b : ℚ) : a ≤ pyMaxQ a b := by
  rw [pyMaxQ_eq_max]; exact le_max_left a b

theorem guardedItem_natCast (vals : List PyVal) (i : ℕ) :
    guardedItem vals (i : ℤ) = some (getAt vals i) := by
  by_cases hlt : i < vals.length
  · have h1 : (i : ℤ) < (vals.length : ℤ) := by exact_mod_cast hlt
    have h0 : ¬ ((i : ℤ) < 0) := by omega
    simp [guardedItem, pyIndex, getAt, h1, h0, hlt, Int.toNat_natCast]
  · have h1 : ¬ ((i : ℤ) < (vals.length : ℤ)) := by omega
    simp [guardedItem, getAt, h1, hlt]

theorem build_features_x_natCast (h : Hourly) (i : ℕ) :
    build_features_x h (i : ℤ) = some (featuresAt h i) := by
  simp [build_features_x, guardedItem_natCast, featuresAt]

theorem guardedItem_neg_one_nil : guardedItem ([] : List PyVal) (-1) = Option.none := by
  simp [guardedItem, pyIndex]

theorem guardedItem_neg_one_ne_nil (vals : List PyVal) (hne : vals ≠ []) :
    ∃ v, guardedItem vals (-1) = some v := by
  have hlen : 0 < vals.length := List.length_pos.mpr hne
  have h1 : (-1 : ℤ) < (vals.length : ℤ) := by omega
  have h2 : ((-1 : ℤ) < 0) := by omega
  rw [← Option.isSome_iff_exists]
  simp only [guardedItem, pyIndex, h1, if_true, h2]
  split
  · rfl
  · rename_i hcond
    exact absurd ⟨by omega, by omega⟩ hcond

theorem build_features_guards (h : Hourly) (i : ℤ) (f : AQIFeatures)
    (hx : build_features_x h i = some f) :
    (guardedItem h.pm2_5 i).isSome ∧ (guardedItem h.pm10 i).isSome ∧
    (guardedItem h.nitrogen_dioxide i).isSome ∧ (guardedItem h.ammonia i).isSome ∧
    (guardedItem h.carbon_monoxide i).isSome ∧
    (guardedItem h.sulphur_dioxide i).isSome ∧ (guardedItem h.ozone i).isSome := by
  simp only [build_features_x, Option.bind_eq_some] at hx
  obtain ⟨v1, h1, v2, h2, v3, h3, v4, h4, v5, h5, v6, h6, v7, h7, _⟩ := hx
  simp [h1, h2, h3, h4, h5, h6, h7]

theorem build_features_x_none_of_empty (h : Hourly)
    (hone : h.pm2_5 = [] ∨ h.pm10 = [] ∨ h.nitrogen_dioxide = [] ∨
      h.ammonia = [] ∨ h.carbon_monoxide = [] ∨ h.sulphur_dioxide = [] ∨
      h.ozone = []) :
    build_features_x h (-1) = Option.none := by
  cases hbf : build_features_x h (-1) with
  | none => rfl
  | some f =>
    exfalso
    obtain ⟨g1, g2, g3, g4, g5, g6, g7⟩ := build_features_guards h (-1) f hbf
    rcases hone with h1 | h1 | h1 | h1 | h1 | h1 | h1 <;>
      simp_all [guardedItem_neg_one_nil]

theorem build_features_x_neg_one_some (h : Hourly)
    (hall : h.pm2_5 ≠ [] ∧ h.pm10 ≠ [] ∧ h.nitrogen_dioxide ≠ [] ∧
      h.ammonia ≠ [] ∧ h.carbon_monoxide ≠ [] ∧ h.sulphur_dioxide ≠ [] ∧
      h.ozone ≠ []) :
    ∃ f, build_features_x h (-1) = some f := by
  obtain ⟨e1, e2, e3, e4, e5, e6, e7⟩ := hall
  obtain ⟨v1, g1⟩ := guardedItem_neg_one_ne_nil _ e1
  obtain ⟨v2, g2⟩ := guardedItem_neg_one_ne_nil _ e2
  obtain ⟨v3, g3⟩ := guardedItem_neg_one_ne_nil _ e3
  obtain ⟨v4, g4⟩ := guardedItem_neg_one_ne_nil _ e4
  obtain ⟨v5, g5⟩ := guardedItem_neg_one_ne_nil _ e5
  obtain ⟨v6, g6⟩ := guardedItem_neg_one_ne_nil _ e6
  obtain ⟨v7, g7⟩ := guardedItem_neg_one_ne_nil _ e7
  exact ⟨{ PM25 := safe_num v1 0, PM10 := safe_num v2 0, NO2 := safe_num v3 0,
           NO := 0, NH3 := safe_num v4 0, CO := safe_num v5 0,
           SO2 := safe_num v6 0, O3 := safe_num v7 0 },
    by simp [build_features_x, g1, g2, g3, g4, g5, g6, g7]⟩

theorem foldl_loopStep_raised {α β : Type} (step : α → Option β) (l : List α)
    (xs : List β) : l.foldl (loopStep step) (xs, true) = (xs, true) := by
  induction l with
  | nil => rfl
  | cons a l ih => simpa [loopStep] using ih

theorem foldl_loopStep_map {α β : Type} (step : α → Option β) (g : α → β)
    (l : List α) (hstep : ∀ a ∈ l, step a = some (g a)) (xs : List β) :
    l.foldl (loopStep step) (xs, false) = (xs ++ l.map g, false) := by
  induction l generalizing xs with
  | nil => simp
  | cons a l ih =>
    have ha := hstep a (by simp)
    have hl : ∀ b ∈ l, step b = some (g b) := fun b hb => hstep b (by simp [hb])
    simp [loopStep, ha, ih hl]

theorem foldl_loopStep_all_none {α β : Type} (step : α → Option β) (l : List α)
    (hl : ∀ a ∈ l, step a = Option.none) (xs : List β) (hne : l ≠ []) :
    l.foldl (loopStep step) (xs, false) = (xs, true) := by
  cases l with
  | nil => exact absurd rfl hne
  | cons a l =>
    rw [List.foldl_cons]
    have ha := hl a (by simp)
    simp [loopStep, ha, foldl_loopStep_raised]

theorem forecastIndex_of_ne_nil (h : Hourly) (hne : h.time ≠ []) (d : ℕ) :
    forecastIndex h d = ((min d (h.time.length - 1) : ℕ) : ℤ) := by
  have hlen : 0 < h.time.length := List.length_pos.mpr hne
  simp only [forecastIndex, pyMinI]
  split <;> omega

theorem forecastIndex_of_nil (h : Hourly) (hnil : h.time = []) (d : ℕ) :
    forecastIndex h d = -1 := by
  simp only [forecastIndex, pyMinI, hnil, List.length_nil]
  split <;> omega

theorem forecast30_point_eq (m : Predictor) (h : Hourly) (t : ℤ) (d : ℕ)
    (hne : h.time ≠ []) :
    forecast30_point m h t d =
      some { date := t + d + 1,
             predicted_aqi :=
               pyMaxQ 0 ((predict_3h m
                 (featuresAt h (min d (h.time.length - 1)))).getD 50) } := by
  rw [forecast30_point, forecastIndex_of_ne_nil h hne d, build_features_x_natCast]

theorem hourly_point_eq (m : Predictor) (h : Hourly) (i : ℕ) (ts : String) :
    hourly_point m h i ts =
      some { time := ts,
             predicted_aqi := (predict_3h m (featuresAt h i)).getD 50 } := by
  rw [hourly_point, build_features_x_natCast]

theorem forecast30_shape (m : Predictor) (h : Hourly) (t : ℤ)
    (hne : h.time ≠ []) :
    forecast30_run m h t =
      ((List.range 30).map (fun d =>
        { date := t + d + 1,
          predicted_aqi :=
            pyMaxQ 0 ((predict_3h m
              (featuresAt h (min d (h.time.length - 1)))).getD 50) }), false) := by
  rw [forecast30_run,
    foldl_loopStep_map _ _ _ (fun d _ => forecast30_point_eq m h t d hne) []]
  simp

theorem hourly_shape (m : Predictor) (h : Hourly) :
    hourly_run m h =
      ((h.time.take 24).enum.map (fun p =>
        { time := p.2,
          predicted_aqi := (predict_3h m (featuresAt h p.1)).getD 50 }), false) := by
  rw [hourly_run,
    foldl_loopStep_map _ _ _ (fun p _ => hourly_point_eq m h p.1 p.2) []]
  simp

theorem forecast30_run_nil_none (m : Predictor) (h : Hourly) (t : ℤ)
    (hnil : h.time = []) (hbf : build_features_x h (-1) = Option.none) :
    forecast30_run m h t = ([], true) := by
  rw [forecast30_run]
  refine foldl_loopStep_all_none _ _ (fun d _ => ?_) [] (by simp)
  rw [forecast30_point, forecastIndex_of_nil h hnil d, hbf]

theorem forecast30_run_nil_some (m : Predictor) (h : Hourly) (t : ℤ)
    (f : AQIFeatures) (hnil : h.time = [])
    (hbf : build_features_x h (-1) = some f) :
    forecast30_run m h t =
      ((List.range 30).map (fun d =>
        { date := t + d + 1,
          predicted_aqi := pyMaxQ 0 ((predict_3h m f).getD 50) }), false) := by
  have hstep : ∀ d ∈ List.range 30, forecast30_point m h t d =
      some { date := t + d + 1,
             predicted_aqi := pyMaxQ 0 ((predict_3h m f).getD 50) } := by
    intro d _
    rw [forecast30_point, forecastIndex_of_nil h hnil d, hbf]
  rw [forecast30_run, foldl_loopStep_map _ _ _ hstep []]
  simp

theorem forecast30_run_raised_nil (m : Predictor) (h : Hourly) (t : ℤ)
    (hr : (forecast30_run m h t).2 = true) : (forecast30_run m h t).1 = [] := by
  by_cases hnil : h.time = []
  · cases hbf : build_features_x h (-1) with
    | none => rw [forecast30_run_nil_none m h t hnil hbf]
    | some f => rw [forecast30_run_nil_some m h t f hnil hbf] at hr; simp at hr
  · rw [forecast30_shape m h t hnil] at hr
    simp at hr

theorem hourly_run_no_raise (m : Predictor) (h : Hourly) :
    (hourly_run m h).2 = false := by
  rw [hourly_shape]

/-! The claims. -/

/-- C1: for every input `x`, `_safe_num` returns `(pyFloat x).getD default`:
the default when `x` is null or `float(x)` raises, `float(x)` exactly when
the conversion succeeds; being a total Lean function it never raises. -/
theorem C1_safe_num_total_coercion (x : PyVal) (d : ℚ) :
    safe_num x d = (pyFloat x).getD d ∧
    (pyFloat x = Option.none → safe_num x d = d) ∧
    (∀ q, pyFloat x = some q → safe_num x d = q) := by
  have hmain : safe_num x d = (pyFloat x).getD d := by
    cases x with
    | none => rfl
    | num q => rfl
    | str v => cases v <;> rfl
    | obj => rfl
  refine ⟨hmain, fun hn => by rw [hmain, hn]; rfl,
    fun q hq => by rw [hmain, hq]; rfl⟩

/-- C1 witness: a numeric string yields its parsed value and a non-numeric
object yields the default. -/
theorem C1_witness :
    pyFloat (PyVal.str (some (7 / 2))) = some (7 / 2) ∧
    safe_num (PyVal.str (some (7 / 2))) 0 = 7 / 2 :=
  ⟨rfl, (C1_safe_num_total_coercion (PyVal.str (some (7 / 2))) 0).2.2 (7 / 2) rfl⟩

/-- C2: on the spec scenario with the fallback predictor, the 30-day
forecast takes day 1 from index 0 with value 64.66 and days 2..30 from
index 1 with value 77.87, clamped at 0 and constant from day 2 on. -/
theorem C2_scenario_thirty_day :
    build_forecast_30d dummyPredict scenarioHours 0 =
      (List.range 30).map (fun d =>
        { date := (d : ℤ) + 1,
          predicted_aqi := if d = 0 then 6466 / 100 else 7787 / 100 }) := by
  rw [build_forecast_30d,
    forecast30_shape dummyPredict scenarioHours 0 (by simp [scenarioHours])]
  refine List.map_congr_left ?_
  intro d _
  rcases Nat.eq_zero_or_pos d with rfl | hdpos
  · norm_num [scenarioHours, featuresAt, getAt, safe_num, pyFloat, predict_3h,
      featureRow, dummyPredict, pyMaxQ]
  · have hmin : min d (scenarioHours.time.length - 1) = 1 := by
      simp only [scenarioHours, List.length_cons, List.length_nil]
      omega
    have hd0 : d ≠ 0 := by omega
    rw [hmin, if_neg hd0]
    norm_num [scenarioHours, featuresAt, getAt, safe_num, pyFloat, predict_3h,
      featureRow, dummyPredict, pyMaxQ]

/-- C3: with a non-empty timestamps array the 30-day forecast has exactly 30
points, each non-negative, dated on consecutive days `t + k + 1`. -/
theorem C3_thirty_day_shape (m : Predictor) (h : Hourly) (t : ℤ)
    (hne : h.time ≠ []) :
    (build_forecast_30d m h t).length = 30 ∧
    ∀ k : ℕ, k < 30 →
      ∃ p, (build_forecast_30d m h t)[k]? = some p ∧
        0 ≤ p.predicted_aqi ∧ p.date = t + (k : ℤ) + 1 := by
  rw [build_forecast_30d, forecast30_shape m h t hne]
  refine ⟨by simp, fun k hk => ?_⟩
  refine ⟨{ date := t + k + 1,
            predicted_aqi := pyMaxQ 0 ((predict_3h m
              (featuresAt h (min k (h.time.length - 1)))).getD 50) },
    ?_, le_pyMaxQ_left 0 _, rfl⟩
  simp [List.getElem?_map, List.getElem?_range, hk]

/-- C3 witness at the spec scenario inputs. -/
theorem C3_witness :
    scenarioHours.time ≠ [] ∧
    (build_forecast_30d dummyPredict scenarioHours 0).length = 30 ∧
    ∀ k : ℕ, k < 30 →
      ∃ p, (build_forecast_30d dummyPredict scenarioHours 0)[k]? = some p ∧
        0 ≤ p.predicted_aqi ∧ p.date = 0 + (k : ℤ) + 1 :=
  ⟨by simp [scenarioHours],
   (C3_thirty_day_shape dummyPredict scenarioHours 0 (by simp [scenarioHours])).1,
   (C3_thirty_day_shape dummyPredict scenarioHours 0 (by simp [scenarioHours])).2⟩

/-- C4: the hourly series is the upstream timestamps (first 24, in order),
each paired with the predictor output at its index or 50.0 on failure, with
no clamping applied; its length is `min 24 (len timestamps)`. -/
theorem C4_hourly_shape (m : Predictor) (h : Hourly) :
    build_hourly_today m h =
      (h.time.take 24).enum.map (fun p =>
        { time := p.2,
          predicted_aqi := (predict_3h m (featuresAt h p.1)).getD 50 }) ∧
    (build_hourly_today m h).length = min 24 h.time.length := by
  have hs := hourly_shape m h
  refine ⟨?_, ?_⟩
  · rw [build_hourly_today, hs]
  · rw [build_hourly_today, hs]
    simp

/-- C5: in both loops a per-point prediction failure yields exactly 50.0 for
that point only: the series lengths (30, resp. min 24 len) are independent
of the predictor, a failing index produces the constant-50 point, and any
index where two predictors agree produces identical points. -/
theorem C5_per_sample_failure_isolation (m m' : Predictor) (h : Hourly)
    (t : ℤ) (hne : h.time ≠ []) :
    (build_forecast_30d m' h t).length = (build_forecast_30d m h t).length ∧
    (build_hourly_today m' h).length = (build_hourly_today m h).length ∧
    (∀ d : ℕ, d < 30 →
      predict_3h m' (featuresAt h (min d (h.time.length - 1))) = Option.none →
      (build_forecast_30d m' h t)[d]? =
        some { date := t + (d : ℤ) + 1, predicted_aqi := 50 }) ∧
    (∀ d : ℕ, d < 30 →
      predict_3h m' (featuresAt h (min d (h.time.length - 1))) =
        predict_3h m (featuresAt h (min d (h.time.length - 1))) →
      (build_forecast_30d m' h t)[d]? = (build_forecast_30d m h t)[d]?) ∧
    (∀ i : ℕ, i < min 24 h.time.length →
      predict_3h m' (featuresAt h i) = Option.none →
      ∃ ts, h.time[i]? = some ts ∧
        (build_hourly_today m' h)[i]? =
          some { time := ts, predicted_aqi := 50 }) ∧
    (∀ i : ℕ, i < min 24 h.time.length →
      predict_3h m' (featuresAt h i) = predict_3h m (featuresAt h i) →
      (build_hourly_today m' h)[i]? = (build_hourly_today m h)[i]?) := by
  have hf := forecast30_shape m h t hne
  have hf' := forecast30_shape m' h t hne
  have hh := hourly_shape m h
  have hh' := hourly_shape m' h
  have hlen : ∀ (i : ℕ) (hi : i < min 24 h.time.length),
      h.time[i]? = some (h.time.get ⟨i, by omega⟩) := by
    intro i hi
    exact List.getElem?_eq_getElem (by omega)
  refine ⟨?_, ?_, ?_, ?_, ?_, ?_⟩
  · rw [build_forecast_30d, build_forecast_30d, hf, hf']
    simp
  · rw [build_hourly_today, build_hourly_today, hh, hh']
    simp
  · intro d hd hfail
    rw [build_forecast_30d, hf']
    simp only [List.getElem?_map, List.getElem?_range, hd, if_pos,
      Option.map_some']
    rw [hfail]
    norm_num [pyMaxQ]
  · intro d hd hagree
    rw [build_forecast_30d, build_forecast_30d, hf, hf']
    simp only [List.getElem?_map, List.getElem?_range, hd, if_pos,
      Option.map_some']
    rw [hagree]
  · intro i hi hfail
    refine ⟨h.time.get ⟨i, by omega⟩, hlen i hi, ?_⟩
    rw [build_hourly_today, hh']
    have htake : (h.time.take 24)[i]? = some (h.time.get ⟨i, by omega⟩) := by
      rw [List.getElem?_take_of_lt (by omega)]
      exact hlen i hi
    simp only [List.getElem?_map, List.getElem?_enum, htake, Option.map_some']
    rw [hfail]
    rfl
  · intro i hi hagree
    have htake : (h.time.take 24)[i]? = some (h.time.get ⟨i, by omega⟩) := by
      rw [List.getElem?_take_of_lt (by omega)]
      exact hlen i hi
    rw [build_hourly_today, build_hourly_today, hh, hh']
    simp only [List.getElem?_map, List.getElem?_enum, htake, Option.map_some']
    rw [hagree]

/-- C5 witness: with the dummy predictor and a copy that fails exactly on
the index-0 row of the scenario, day 1 falls back to 50 and day 2 agrees
with the dummy prediction. -/
theorem C5_witness :
    scenarioHours.time ≠ [] ∧
    predict_3h failAtFirstRow
      (featuresAt scenarioHours (min 0 (scenarioHours.time.length - 1))) =
      Option.none ∧
    (build_forecast_30d failAtFirstRow scenarioHours 0)[0]? =
      some { date := 1, predicted_aqi := 50 } ∧
    (build_forecast_30d failAtFirstRow scenarioHours 0)[1]? =
      (build_forecast_30d dummyPredict scenarioHours 0)[1]? := by
  have hne : scenarioHours.time ≠ [] := by simp [scenarioHours]
  have hfail : predict_3h failAtFirstRow
      (featuresAt scenarioHours (min 0 (scenarioHours.time.length - 1))) =
      Option.none := by
    norm_num [scenarioHours, featuresAt, getAt, safe_num, pyFloat, predict_3h,
      featureRow, failAtFirstRow]
  have hagree : predict_3h failAtFirstRow
      (featuresAt scenarioHours (min 1 (scenarioHours.time.length - 1))) =
      predict_3h dummyPredict
        (featuresAt scenarioHours (min 1 (scenarioHours.time.length - 1))) := by
    norm_num [scenarioHours, featuresAt, getAt, safe_num, pyFloat, predict_3h,
      featureRow, failAtFirstRow]
  have hc := C5_per_sample_failure_isolation dummyPredict failAtFirstRow
    scenarioHours 0 hne
  refine ⟨hne, hfail, ?_, hc.2.2.2.1 1 (by omega) hagree⟩
  have h0 := hc.2.2.1 0 (by omega) hfail
  simpa using h0

/-- C6: every feature vector the loops build has `NO = 0` and each of the
other seven fields is the safe coercion (default 0.0) of the guarded lookup
of its pollutant array; as total rationals the fields are never null and
never an error. -/
theorem C6_features_no_zero_defaults (h : Hourly) (i : ℤ) (f : AQIFeatures)
    (hx : build_features_x h i = some f) :
    f.NO = 0 ∧
    ∃ v1 v2 v3 v4 v5 v6 v7,
      guardedItem h.pm2_5 i = some v1 ∧ guardedItem h.pm10 i = some v2 ∧
      guardedItem h.nitrogen_dioxide i = some v3 ∧
      guardedItem h.ammonia i = some v4 ∧
      guardedItem h.carbon_monoxide i = some v5 ∧
      guardedItem h.sulphur_dioxide i = some v6 ∧
      guardedItem h.ozone i = some v7 ∧
      f = { PM25 := safe_num v1 0, PM10 := safe_num v2 0,
            NO2 := safe_num v3 0, NO := 0, NH3 := safe_num v4 0,
            CO := safe_num v5 0, SO2 := safe_num v6 0, O3 := safe_num v7 0 } := by
  simp only [build_features_x, Option.bind_eq_some, Option.some.injEq] at hx
  obtain ⟨v1, h1, v2, h2, v3, h3, v4, h4, v5, h5, v6, h6, v7, h7, hf⟩ := hx
  subst hf
  exact ⟨rfl, v1, v2, v3, v4, v5, v6, v7, h1, h2, h3, h4, h5, h6, h7, rfl⟩

/-- C6 witness: the scenario features at index 0. -/
theorem C6_witness :
    build_features_x scenarioHours 0 =
      some { PM25 := 10, PM10 := 5, NO2 := 1, NO := 0, NH3 := 1 / 10,
             CO := 100, SO2 := 1 / 2, O3 := 30 } ∧
    ({ PM25 := 10, PM10 := 5, NO2 := 1, NO := 0, NH3 := 1 / 10,
       CO := 100, SO2 := 1 / 2, O3 := 30 } : AQIFeatures).NO = 0 := by
  have hbf : build_features_x scenarioHours 0 =
      some { PM25 := 10, PM10 := 5, NO2 := 1, NO := 0, NH3 := 1 / 10,
             CO := 100, SO2 := 1 / 2, O3 := 30 } := by
    have h0 := build_features_x_natCast scenarioHours 0
    simpa [featuresAt, getAt, scenarioHours, safe_num, pyFloat] using h0
  exact ⟨hbf, (C6_features_no_zero_defaults scenarioHours 0 _ hbf).1⟩

/-- C7 counterexample: with empty timestamps but every pollutant array
holding one sample, Python negative indexing makes the 30-day loop read
index `-1` of each array, so the forecast is not empty (it has 30 points)
although the claim demands an empty sequence for every pollutant arrays. -/
theorem C7_counterexample :
    emptyTimeHours.time = [] ∧
    build_forecast_30d dummyPredict emptyTimeHours 0 ≠ [] := by
  refine ⟨rfl, ?_⟩
  have hall : emptyTimeHours.pm2_5 ≠ [] ∧ emptyTimeHours.pm10 ≠ [] ∧
      emptyTimeHours.nitrogen_dioxide ≠ [] ∧ emptyTimeHours.ammonia ≠ [] ∧
      emptyTimeHours.carbon_monoxide ≠ [] ∧
      emptyTimeHours.sulphur_dioxide ≠ [] ∧ emptyTimeHours.ozone ≠ [] := by
    simp [emptyTimeHours]
  obtain ⟨f, hbf⟩ := build_features_x_neg_one_some emptyTimeHours hall
  rw [build_forecast_30d, forecast30_run_nil_some dummyPredict emptyTimeHours 0 f rfl hbf]
  simp

/-- C7 as amended: with empty timestamps the hourly series is empty and
never raises; the 30-day series is empty exactly when some pollutant array
is also empty (the negative-index error is caught by the section handler),
while with all seven arrays non-empty Python negative indexing reuses each
array's last element and 30 points are produced; no case is an uncaught
crash. -/
theorem C7_empty_timestamps (m : Predictor) (h : Hourly) (t : ℤ)
    (hempty : h.time = []) :
    build_hourly_today m h = [] ∧
    ((h.pm2_5 = [] ∨ h.pm10 = [] ∨ h.nitrogen_dioxide = [] ∨ h.ammonia = [] ∨
      h.carbon_monoxide = [] ∨ h.sulphur_dioxide = [] ∨ h.ozone = []) →
      build_forecast_30d m h t = []) ∧
    ((h.pm2_5 ≠ [] ∧ h.pm10 ≠ [] ∧ h.nitrogen_dioxide ≠ [] ∧ h.ammonia ≠ [] ∧
      h.carbon_monoxide ≠ [] ∧ h.sulphur_dioxide ≠ [] ∧ h.ozone ≠ []) →
      (build_forecast_30d m h t).length = 30) := by
  refine ⟨?_, ?_, ?_⟩
  · rw [build_hourly_today, hourly_shape]
    simp [hempty]
  · intro hone
    rw [build_forecast_30d,
      forecast30_run_nil_none m h t hempty (build_features_x_none_of_empty h hone)]
  · intro hall
    obtain ⟨f, hbf⟩ := build_features_x_neg_one_some h hall
    rw [build_forecast_30d, forecast30_run_nil_some m h t f hempty hbf]
    simp

/-- C7 witness: with every array empty both series are empty. -/
theorem C7_witness :
    emptyAllHours.time = [] ∧
    build_hourly_today dummyPredict emptyAllHours = [] ∧
    build_forecast_30d dummyPredict emptyAllHours 0 = [] := by
  have hc := C7_empty_timestamps dummyPredict emptyAllHours 0 rfl
  exact ⟨rfl, hc.1, hc.2.1 (Or.inl rfl)⟩

/-- C8: if the 30-day block raises, the response is still produced (given
the unguarded current prediction succeeds) with `forecast_30d` exactly
empty, the weather passed through, and the hourly section present; the
hourly block itself never raises in this model. -/
theorem C8_degraded_section_empty (m : Predictor) (h : Hourly)
    (comps : AQIFeatures) (wx : ℚ × ℚ × ℚ × ℚ) (t : ℤ) (q : ℚ)
    (hcur : predict_3h m comps = some q)
    (hraise : (forecast30_run m h t).2 = true) :
    live_core m h comps wx t =
      some { weather := wx, predicted_aqi_3h := q, forecast_30d := [],
             hourly_aqi := (hourly_run m h).1 } ∧
    (hourly_run m h).2 = false := by
  constructor
  · simp only [live_core, hcur]
    rw [forecast30_run_raised_nil m h t hraise]
  · exact hourly_run_no_raise m h

/-- C8 witness: a constant predictor on the all-empty upstream document. -/
theorem C8_witness :
    (forecast30_run (fun _ => some 0) emptyAllHours 0).2 = true ∧
    live_core (fun _ => some 0) emptyAllHours
        { PM25 := 0, PM10 := 0, NO2 := 0, NO := 0, NH3 := 0, CO := 0,
          SO2 := 0, O3 := 0 } (0, 0, 0, 0) 0 =
      some { weather := (0, 0, 0, 0), predicted_aqi_3h := 0,
             forecast_30d := [], hourly_aqi := [] } := by
  have hraise : (forecast30_run (fun _ => some 0) emptyAllHours 0).2 = true := by
    rw [forecast30_run_nil_none (fun _ => some 0) emptyAllHours 0 rfl
      (build_features_x_none_of_empty emptyAllHours (Or.inl rfl))]
  have hc := C8_degraded_section_empty (fun _ => some 0) emptyAllHours
    { PM25 := 0, PM10 := 0, NO2 := 0, NO := 0, NH3 := 0, CO := 0,
      SO2 := 0, O3 := 0 } (0, 0, 0, 0) 0 0 rfl hraise
  exact ⟨hraise, hc.1⟩

/-- C9: the first `load_model` call makes exactly one load attempt and
caches its result; every later call, whatever `joblib.load` would then
return, gives back the same predictor and leaves the state untouched; on
load failure the dummy fallback is cached and the warning is printed
exactly once, at resolution time; on success no warning is printed. -/
theorem C9_load_model_memoized (o : Option Predictor) :
    ((ModelLoaderSrc.load_model o initLoader).2).attempts = 1 ∧
    ((ModelLoaderSrc.load_model o initLoader).2).cache =
      some (ModelLoaderSrc.load_model o initLoader).1 ∧
    (∀ o' : Option Predictor,
      ModelLoaderSrc.load_model o' (ModelLoaderSrc.load_model o initLoader).2 =
        ((ModelLoaderSrc.load_model o initLoader).1,
         (ModelLoaderSrc.load_model o initLoader).2)) ∧
    (o = Option.none →
      (ModelLoaderSrc.load_model o initLoader).1 = ModelLoaderSrc.dummyModel ∧
      ((ModelLoaderSrc.load_model o initLoader).2).warns = 1) ∧
    (∀ mdl : Predictor, o = some mdl →
      (ModelLoaderSrc.load_model o initLoader).1 = mdl ∧
      ((ModelLoaderSrc.load_model o initLoader).2).warns = 0) := by
  cases o with
  | none =>
    refine ⟨rfl, rfl, fun _ => rfl, fun _ => ⟨rfl, rfl⟩, ?_⟩
    intro mdl hm
    exact Option.noConfusion hm
  | some mdl =>
    refine ⟨rfl, rfl, fun _ => rfl, ?_, ?_⟩
    · intro hn
      exact Option.noConfusion hn
    · intro mdl' hm
      injection hm with hm'
      subst hm'
      exact ⟨rfl, rfl⟩

/-- C9 witness: a failing first load caches the dummy fallback, attempts
once, warns once, and a second call returns the cached pair unchanged. -/
theorem C9_witness :
    (ModelLoaderSrc.load_model Option.none initLoader).1 =
      ModelLoaderSrc.dummyModel ∧
    ((ModelLoaderSrc.load_model Option.none initLoader).2).attempts = 1 ∧
    ((ModelLoaderSrc.load_model Option.none initLoader).2).warns = 1 ∧
    ModelLoaderSrc.load_model Option.none
        (ModelLoaderSrc.load_model Option.none initLoader).2 =
      ((ModelLoaderSrc.load_model Option.none initLoader).1,
       (ModelLoaderSrc.load_model Option.none initLoader).2) := by
  have hc := C9_load_model_memoized Option.none
  exact ⟨(hc.2.2.2.1 rfl).1, hc.1, (hc.2.2.2.1 rfl).2, hc.2.2.1 Option.none⟩

/-- C10: the `load_model` redefined in `backend/main.py` agrees with the one
in `backend/model_loader.py`: the default model paths are equal and, for the
same load outcome and the same cache state, both return the same predictor
(loaded artifact, or the `sum*0.1+50` dummy on failure) and the same new
state, i.e. the same memoization behaviour. -/
theorem C10_main_loader_equivalent :
    MainSrc.model_path = ModelLoaderSrc.model_path ∧
    ∀ (o : Option Predictor) (s : LoaderState),
      MainSrc.load_model o s = ModelLoaderSrc.load_model o s := by
  refine ⟨rfl, fun o s => ?_⟩
  obtain ⟨c, a, w⟩ := s
  cases c <;> cases o <;> rfl
